import Mathlib

/-!
Verification of the Token Usage Recorder (`TokenUsageCallback` in
`src/examples/callbacks.py`) against its natural-language specification.

The Python class keeps four mutable fields (`token_usage`, `input_tokens`,
`output_tokens`, `total_tokens`) and has three operations:
`on_llm_end(response)`, `reset()` and `get_usage_string()`.  We embed the
state as a structure, the operations as pure state-passing functions, and
Python dicts of integer counts as association lists with first-match lookup
(dict keys are unique, so first-match lookup agrees with dict lookup).

The response object: `on_llm_end` reads only `response.llm_output`, which in
Python is either missing / `None` / an empty dict (all falsy, modelled as
`none` or a `some` with an empty-dict shape) or a truthy dict that may or may
not carry the key `'token_usage'`.  Per the spec's input boundary (§6), the
value under `'token_usage'`, when the key is present, is a usage mapping of
integer counts; other entries of `llm_output` are irrelevant to the code
except through the dict's truthiness, so we record only how many there are.
-/

/-- A usage mapping: a Python dict from string keys to integer token counts,
embedded as an association list (`.get(k, 0)` becomes `(lookup k).getD 0`). -/
abbrev Usage := List (String × Int)

/-- The `llm_output` dict of a response, as far as `on_llm_end` reads it:
whether the key `'token_usage'` is present (and the usage mapping under it),
and how many other entries the dict has (they matter only for truthiness). -/
structure LLMOut where
  token_usage : Option Usage
  otherKeys : Nat
deriving DecidableEq, Repr

/-- Python truthiness of the `llm_output` dict: non-empty. -/
def LLMOut.truthy (d : LLMOut) : Bool :=
  d.token_usage.isSome || d.otherKeys != 0

/-- A response as seen by `on_llm_end`: `none` models a missing `llm_output`
attribute or a `None` value (the `hasattr` guard and falsiness of `None`
behave exactly like falsiness of an empty dict, handled by `truthy`). -/
structure Response where
  llm_output : Option LLMOut
deriving DecidableEq, Repr

/-- The state of `TokenUsageCallback`: its four instance fields. -/
structure TokenUsageCallback where
  token_usage : Usage
  input_tokens : Int
  output_tokens : Int
  total_tokens : Int
deriving DecidableEq, Repr

namespace TokenUsageCallback

/-- `__init__`: `token_usage = {}`, all three counts `0`. -/
def init : TokenUsageCallback :=
  { token_usage := [], input_tokens := 0, output_tokens := 0, total_tokens := 0 }

/-- `on_llm_end(self, response)`:
```
if hasattr(response, 'llm_output') and response.llm_output:
    usage = response.llm_output.get('token_usage', {})
    self.input_tokens = usage.get('prompt_tokens', 0)
    self.output_tokens = usage.get('completion_tokens', 0)
    self.total_tokens = usage.get('total_tokens', 0)
    self.token_usage = usage
```
-/
def onLlmEnd (s : TokenUsageCallback) (r : Response) : TokenUsageCallback :=
  match r.llm_output with
  | some d =>
    if d.truthy then
      let usage := d.token_usage.getD []
      { input_tokens := (usage.lookup "prompt_tokens").getD 0
        output_tokens := (usage.lookup "completion_tokens").getD 0
        total_tokens := (usage.lookup "total_tokens").getD 0
        token_usage := usage }
    else s
  | none => s

/-- `reset(self)`: back to the all-zero / empty state. -/
def reset (_ : TokenUsageCallback) : TokenUsageCallback := init

/-- `get_usage_string(self)`:
```
if self.token_usage:
    return (
        f" [📊 Tokens: {self.input_tokens} in, {self.output_tokens} out,"
        f" {self.total_tokens} total]"
    )
return ""
```
-/
def getUsageString (s : TokenUsageCallback) : String :=
  if s.token_usage.isEmpty then ""
  else
    " [📊 Tokens: " ++ toString s.input_tokens ++ " in, " ++
      toString s.output_tokens ++ " out, " ++ toString s.total_tokens ++ " total]"

end TokenUsageCallback

/-- A response whose truthy `llm_output` carries the key `'token_usage'`
with usage mapping `u` (and no other entries). -/
def usageResponse (u : Usage) : Response :=
  { llm_output := some { token_usage := some u, otherKeys := 0 } }

/-- The response exposes a usage mapping: its `llm_output` is present and has
the key `'token_usage'` (which also makes the dict truthy). -/
def exposesUsage (r : Response) : Prop :=
  ∃ d u, r.llm_output = some d ∧ d.token_usage = some u

/-- Modelled from the spec (§4.1, output contract): the condition "the stored
record has any non-zero field or non-empty `raw`", written from the spec's
words to compare against what `get_usage_string` actually tests. -/
def specShowCond (s : TokenUsageCallback) : Prop :=
  s.input_tokens ≠ 0 ∨ s.output_tokens ≠ 0 ∨ s.total_tokens ≠ 0 ∨
    s.token_usage ≠ []

instance (s : TokenUsageCallback) : Decidable (specShowCond s) := by
  unfold specShowCond; infer_instance

/-- One call against the recorder: either `on_llm_end` with some response, or
`reset`. -/
inductive Op where
  | record (r : Response)
  | doReset

/-- Run a sequence of calls from a given state. -/
def runOps (s : TokenUsageCallback) : List Op → TokenUsageCallback
  | [] => s
  | op :: ops =>
    match op with
    | Op.record r => runOps (s.onLlmEnd r) ops
    | Op.doReset => runOps s.reset ops

open TokenUsageCallback

/-! ## Helper lemmas -/

/-- The bracketed fragment produced by `get_usage_string` is never the empty
string, whatever the three counts are. -/
lemma usage_fragment_ne_empty (x y z : Int) :
    (" [📊 Tokens: " ++ toString x ++ " in, " ++ toString y ++ " out, " ++
      toString z ++ " total]") ≠ "" := by
  intro h
  have h2 := congrArg String.data h
  simp [String.data_append] at h2

/-- `get_usage_string` yields the empty string exactly when the stored raw
mapping is empty: the code tests only `self.token_usage` for truthiness. -/
lemma getUsageString_eq_empty_iff (s : TokenUsageCallback) :
    getUsageString s = "" ↔ s.token_usage = [] := by
  unfold getUsageString
  by_cases h : s.token_usage.isEmpty
  · simp [h, List.isEmpty_iff.mp h]
  · simp only [h, if_false]
    constructor
    · intro he; exact absurd he (usage_fragment_ne_empty _ _ _)
    · intro he; exact absurd (List.isEmpty_iff.mpr he) h

/-- When the raw mapping is non-empty, `get_usage_string` yields the
bracketed fragment built from the three stored counts. -/
lemma getUsageString_of_ne_empty (s : TokenUsageCallback)
    (h : s.token_usage ≠ []) :
    getUsageString s =
      " [📊 Tokens: " ++ toString s.input_tokens ++ " in, " ++
        toString s.output_tokens ++ " out, " ++ toString s.total_tokens ++
        " total]" := by
  unfold getUsageString
  simp [List.isEmpty_iff, h]

/-- The reachability invariant: when the stored raw mapping is empty, all
three counts are zero. -/
def countsZeroOnEmptyRaw (s : TokenUsageCallback) : Prop :=
  s.token_usage = [] →
    s.input_tokens = 0 ∧ s.output_tokens = 0 ∧ s.total_tokens = 0

lemma countsZeroOnEmptyRaw_init : countsZeroOnEmptyRaw init := by
  intro _; exact ⟨rfl, rfl, rfl⟩

lemma countsZeroOnEmptyRaw_onLlmEnd (s : TokenUsageCallback) (r : Response)
    (h : countsZeroOnEmptyRaw s) : countsZeroOnEmptyRaw (s.onLlmEnd r) := by
  unfold onLlmEnd
  match hr : r.llm_output with
  | none => exact h
  | some d =>
    by_cases ht : d.truthy
    · simp only [ht, if_true]
      intro he
      have he' : d.token_usage.getD [] = [] := he
      refine ⟨?_, ?_, ?_⟩ <;> simp [he']
    · simp only [ht, if_false]
      exact h

lemma countsZeroOnEmptyRaw_runOps (ops : List Op) :
    ∀ s : TokenUsageCallback, countsZeroOnEmptyRaw s →
      countsZeroOnEmptyRaw (runOps s ops) := by
  induction ops with
  | nil => intro s h; exact h
  | cons op ops ih =>
    intro s h
    cases op with
    | record r => exact ih _ (countsZeroOnEmptyRaw_onLlmEnd s r h)
    | doReset => exact ih _ countsZeroOnEmptyRaw_init

/-! ## Claim theorems -/

/-- C4: when the usage mapping supplies a `total_tokens` value `c`,
`on_llm_end` stores `total_tokens = c` verbatim — the total is read from the
mapping with `usage.get('total_tokens', 0)` and never recomputed from the
other two counts, whatever they are. -/
theorem C4_total_taken_verbatim (s : TokenUsageCallback) (u : Usage) (c : Int)
    (h : u.lookup "total_tokens" = some c) :
    (onLlmEnd s (usageResponse u)).total_tokens = c := by
  simp [onLlmEnd, usageResponse, LLMOut.truthy, h]

theorem C4_total_taken_verbatim_witness :
    (onLlmEnd init (usageResponse
      [("prompt_tokens", 1), ("completion_tokens", 2),
       ("total_tokens", 99)])).total_tokens = 99 ∧
    (onLlmEnd init (usageResponse
      [("prompt_tokens", 1), ("completion_tokens", 2),
       ("total_tokens", 99)])).input_tokens +
      (onLlmEnd init (usageResponse
        [("prompt_tokens", 1), ("completion_tokens", 2),
         ("total_tokens", 99)])).output_tokens ≠ 99 :=
  ⟨C4_total_taken_verbatim init
      [("prompt_tokens", 1), ("completion_tokens", 2), ("total_tokens", 99)]
      99 (by decide),
    by decide⟩

/-- C6: a freshly constructed recorder (`__init__`), and any recorder
immediately after `reset()`, has all three counts zero and an empty raw
mapping, and `get_usage_string` in that state returns the empty string. -/
theorem C6_fresh_and_reset_zero :
    init.input_tokens = 0 ∧ init.output_tokens = 0 ∧ init.total_tokens = 0 ∧
    init.token_usage = [] ∧ getUsageString init = "" ∧
    ∀ s : TokenUsageCallback,
      (reset s).input_tokens = 0 ∧ (reset s).output_tokens = 0 ∧
      (reset s).total_tokens = 0 ∧ (reset s).token_usage = [] ∧
      getUsageString (reset s) = "" :=
  ⟨rfl, rfl, rfl, rfl, rfl, fun _ => ⟨rfl, rfl, rfl, rfl, rfl⟩⟩

/-- C7: `on_llm_end` is embedded as a total function — the code has no raise
or error branch on its declared input boundary — and a partial usage mapping
yields zero for each of the three fields missing from it (each count is read
with `usage.get(key, 0)`). -/
theorem C7_missing_fields_default_zero (s : TokenUsageCallback) (u : Usage) :
    (u.lookup "prompt_tokens" = none →
      (onLlmEnd s (usageResponse u)).input_tokens = 0) ∧
    (u.lookup "completion_tokens" = none →
      (onLlmEnd s (usageResponse u)).output_tokens = 0) ∧
    (u.lookup "total_tokens" = none →
      (onLlmEnd s (usageResponse u)).total_tokens = 0) := by
  refine ⟨fun h => ?_, fun h => ?_, fun h => ?_⟩ <;>
    simp [onLlmEnd, usageResponse, LLMOut.truthy, h]

theorem C7_missing_fields_default_zero_witness :
    (onLlmEnd init (usageResponse [("prompt_tokens", 7)])).output_tokens = 0 ∧
    (onLlmEnd init (usageResponse [("prompt_tokens", 7)])).total_tokens = 0 :=
  ⟨(C7_missing_fields_default_zero init [("prompt_tokens", 7)]).2.1 (by decide),
   (C7_missing_fields_default_zero init [("prompt_tokens", 7)]).2.2 (by decide)⟩

/-- C8 as frozen is refuted by the code: for the mapping
`{prompt_tokens: 12, completion_tokens: 34, total_tokens: 46}`,
`get_usage_string` does not return `" [Tokens: 12 in, 34 out, 46 total]"` —
the literal in the code carries a 📊 marker after the bracket. -/
theorem C8_counterexample :
    getUsageString (onLlmEnd init (usageResponse
        [("prompt_tokens", 12), ("completion_tokens", 34),
         ("total_tokens", 46)])) ≠
      " [Tokens: 12 in, 34 out, 46 total]" := by decide

/-- C8 (amended): for that mapping `get_usage_string` returns exactly the
string `" [📊 Tokens: 12 in, 34 out, 46 total]"`. -/
theorem C8_amended_exact_string :
    getUsageString (onLlmEnd init (usageResponse
        [("prompt_tokens", 12), ("completion_tokens", 34),
         ("total_tokens", 46)])) =
      " [📊 Tokens: 12 in, 34 out, 46 total]" := rfl

/-- C3: after `on_llm_end` is given the usage mapping
`{prompt_tokens: a, completion_tokens: b, total_tokens: c}`, the string
returned by `get_usage_string` is exactly the bracketed fragment built from
`a`, `b`, `c` in that order — hence non-empty and containing exactly those
three counts in the order input, output, total. -/
theorem C3_record_then_format_contains (a b c : Int)
    (ha : 0 ≤ a) (hb : 0 ≤ b) (hc : 0 ≤ c) (s : TokenUsageCallback) :
    getUsageString (onLlmEnd s (usageResponse
        [("prompt_tokens", a), ("completion_tokens", b),
         ("total_tokens", c)])) =
      " [📊 Tokens: " ++ toString a ++ " in, " ++ toString b ++ " out, " ++
        toString c ++ " total]" ∧
    getUsageString (onLlmEnd s (usageResponse
        [("prompt_tokens", a), ("completion_tokens", b),
         ("total_tokens", c)])) ≠ "" :=
  ⟨rfl, fun h => usage_fragment_ne_empty a b c h⟩

theorem C3_record_then_format_contains_witness :
    getUsageString (onLlmEnd init (usageResponse
        [("prompt_tokens", 12), ("completion_tokens", 34),
         ("total_tokens", 46)])) =
      " [📊 Tokens: " ++ toString (12 : Int) ++ " in, " ++
        toString (34 : Int) ++ " out, " ++ toString (46 : Int) ++ " total]" ∧
    getUsageString (onLlmEnd init (usageResponse
        [("prompt_tokens", 12), ("completion_tokens", 34),
         ("total_tokens", 46)])) ≠ "" :=
  C3_record_then_format_contains 12 34 46 (by decide) (by decide) (by decide)
    init

/-- C5: when the second response exposes a usage mapping, two successive
`on_llm_end` calls end in the state the second call alone produces from any
starting state — last write wins, no accumulation. -/
theorem C5_last_write_wins (s s' : TokenUsageCallback) (r1 r2 : Response)
    (h1 : exposesUsage r1) (h2 : exposesUsage r2) :
    onLlmEnd (onLlmEnd s r1) r2 = onLlmEnd s' r2 := by
  obtain ⟨d2, u2, hd2, hu2⟩ := h2
  simp [onLlmEnd, hd2, LLMOut.truthy, hu2]

theorem C5_last_write_wins_witness :
    onLlmEnd (onLlmEnd init (usageResponse [("prompt_tokens", 1)]))
        (usageResponse
          [("prompt_tokens", 5), ("completion_tokens", 6),
           ("total_tokens", 11)]) =
      onLlmEnd ⟨[("prompt_tokens", 9)], 9, 9, 9⟩
        (usageResponse
          [("prompt_tokens", 5), ("completion_tokens", 6),
           ("total_tokens", 11)]) :=
  C5_last_write_wins init ⟨[("prompt_tokens", 9)], 9, 9, 9⟩ _ _
    ⟨_, _, rfl, rfl⟩ ⟨_, _, rfl, rfl⟩

/-- C9: a response with a truthy `llm_output` whose `'token_usage'` key is
absent or maps to an empty dict makes `on_llm_end` overwrite the record with
the all-zero/empty initial state, after which `get_usage_string` returns the
empty string. -/
theorem C9_truthy_without_usage_resets (s : TokenUsageCallback) (d : LLMOut)
    (ht : d.truthy = true)
    (hu : d.token_usage = none ∨ d.token_usage = some []) :
    onLlmEnd s { llm_output := some d } = init ∧
    getUsageString (onLlmEnd s { llm_output := some d }) = "" := by
  have husage : d.token_usage.getD [] = [] := by
    rcases hu with h | h <;> simp [h]
  have h1 : onLlmEnd s { llm_output := some d } = init := by
    simp [onLlmEnd, ht, husage, init]
  exact ⟨h1, by rw [h1]; rfl⟩

theorem C9_truthy_without_usage_resets_witness :
    onLlmEnd ⟨[("prompt_tokens", 1)], 1, 2, 3⟩
        { llm_output := some { token_usage := none, otherKeys := 1 } } =
      init ∧
    getUsageString (onLlmEnd ⟨[("prompt_tokens", 1)], 1, 2, 3⟩
        { llm_output := some { token_usage := none, otherKeys := 1 } }) =
      "" :=
  C9_truthy_without_usage_resets ⟨[("prompt_tokens", 1)], 1, 2, 3⟩
    { token_usage := none, otherKeys := 1 } (by decide) (Or.inl rfl)

/-- C1 as frozen is refuted: a state with a non-zero count field but empty
raw mapping satisfies the spec's display condition, yet `get_usage_string`
returns the empty string — the code tests only `self.token_usage`. -/
theorem C1_counterexample :
    specShowCond ⟨[], 5, 0, 0⟩ ∧
    getUsageString ⟨[], 5, 0, 0⟩ = "" := by decide

/-- C1 (amended): for every recorder state, `get_usage_string` returns the
empty string iff the raw mapping is empty, and when the raw mapping is
non-empty it returns the (non-empty) bracketed fragment containing the three
stored counts in the fixed order input, output, total; a non-zero count with
an empty raw mapping does not trigger output. -/
theorem C1_amended_fragment_iff_raw (s : TokenUsageCallback) :
    (getUsageString s = "" ↔ s.token_usage = []) ∧
    (s.token_usage ≠ [] →
      getUsageString s =
        " [📊 Tokens: " ++ toString s.input_tokens ++ " in, " ++
          toString s.output_tokens ++ " out, " ++ toString s.total_tokens ++
          " total]" ∧
      getUsageString s ≠ "") :=
  ⟨getUsageString_eq_empty_iff s,
   fun h => ⟨getUsageString_of_ne_empty s h,
     fun he => h ((getUsageString_eq_empty_iff s).mp he)⟩⟩

theorem C1_amended_fragment_iff_raw_witness :
    getUsageString ⟨[("prompt_tokens", 1)], 1, 2, 3⟩ =
      " [📊 Tokens: " ++ toString (1 : Int) ++ " in, " ++
        toString (2 : Int) ++ " out, " ++ toString (3 : Int) ++ " total]" ∧
    getUsageString ⟨[("prompt_tokens", 1)], 1, 2, 3⟩ ≠ "" :=
  (C1_amended_fragment_iff_raw ⟨[("prompt_tokens", 1)], 1, 2, 3⟩).2
    (by decide)

/-- The response carries a truthy `llm_output` dict: the condition of the
guard `if hasattr(response, 'llm_output') and response.llm_output`. -/
def hasTruthyLlmOutput (r : Response) : Prop :=
  ∃ d, r.llm_output = some d ∧ d.truthy = true

/-- C2 as frozen is refuted: a response whose truthy `llm_output` has no
`'token_usage'` key exposes no usage mapping, yet `on_llm_end` does not
leave the stored record unchanged — it overwrites it with zeros. -/
theorem C2_counterexample :
    ¬ exposesUsage
        { llm_output := some { token_usage := none, otherKeys := 1 } } ∧
    onLlmEnd ⟨[("prompt_tokens", 1)], 1, 2, 3⟩
        { llm_output := some { token_usage := none, otherKeys := 1 } } ≠
      ⟨[("prompt_tokens", 1)], 1, 2, 3⟩ := by
  constructor
  · rintro ⟨d, u, hd, hu⟩
    injection hd with hd
    subst hd
    simp at hu
  · decide

/-- C2 (amended): the stored record is left unchanged exactly by responses
whose `llm_output` is absent, `None`, or falsy (an empty dict); a response
with a truthy `llm_output` overwrites the record even when it carries no
usage mapping (that case is the subject of the C9 theorem). -/
theorem C2_amended_no_truthy_output_unchanged
    (s : TokenUsageCallback) (r : Response)
    (h : ¬ hasTruthyLlmOutput r) : onLlmEnd s r = s := by
  unfold onLlmEnd
  match hr : r.llm_output with
  | none => rfl
  | some d =>
    by_cases ht : d.truthy
    · exact absurd ⟨d, hr, ht⟩ h
    · simp [ht]

theorem C2_amended_no_truthy_output_unchanged_witness :
    onLlmEnd ⟨[("prompt_tokens", 1)], 1, 2, 3⟩ { llm_output := none } =
      ⟨[("prompt_tokens", 1)], 1, 2, 3⟩ :=
  C2_amended_no_truthy_output_unchanged ⟨[("prompt_tokens", 1)], 1, 2, 3⟩
    { llm_output := none }
    (by rintro ⟨d, hd, _⟩; exact Option.noConfusion hd)

/-- C10: in every state reachable from a fresh recorder by `on_llm_end` and
`reset` calls, an empty raw mapping forces all three counts to zero; hence
on reachable states the code's emptiness test on `token_usage` alone — and
therefore the emptiness of `get_usage_string` — coincides with the spec's
condition "any non-zero field or non-empty raw". -/
theorem C10_reachable_invariant (ops : List Op) :
    ((runOps init ops).token_usage = [] →
      (runOps init ops).input_tokens = 0 ∧
      (runOps init ops).output_tokens = 0 ∧
      (runOps init ops).total_tokens = 0) ∧
    ((runOps init ops).token_usage ≠ [] ↔ specShowCond (runOps init ops)) ∧
    (getUsageString (runOps init ops) ≠ "" ↔
      specShowCond (runOps init ops)) := by
  have hinv := countsZeroOnEmptyRaw_runOps ops init countsZeroOnEmptyRaw_init
  have hiff : (runOps init ops).token_usage ≠ [] ↔
      specShowCond (runOps init ops) := by
    constructor
    · intro h
      exact Or.inr (Or.inr (Or.inr h))
    · intro hsc he
      obtain ⟨h1, h2, h3⟩ := hinv he
      rcases hsc with h | h | h | h
      exacts [h h1, h h2, h h3, h he]
  exact ⟨hinv, hiff,
    (not_congr (getUsageString_eq_empty_iff (runOps init ops))).trans hiff⟩

theorem C10_reachable_invariant_witness :
    (runOps init []).input_tokens = 0 ∧
    (runOps init []).output_tokens = 0 ∧
    (runOps init []).total_tokens = 0 :=
  (C10_reachable_invariant []).1 rfl
